import Mathlib

/-!
Shallow embedding of the site-grader scoring core (Cloudflare Worker,
TypeScript) and proofs about its specification.

The embedding covers the shared Finding/CategoryResult model
(`worker/src/analyzers/types.ts`), the grading engine
(`scoreToGrade`, `gradeColor`, `estimateWaste`, `collectPriorityFixes`,
`gradeReport` in the scoring module), the Mobile Experience, Page Speed
and Ad Landing Readiness analyzers, and the validation tail of the AI
content review.

Modelling conventions:
- JavaScript numbers are modelled as exact rationals (`ℚ`); integer-valued
  scores as `ℤ`.  `Math.round` is `jsRound` (floor of x + 1/2, which is
  the ECMA-262 definition of `Math.round` over the reals).
- `Record<string, number>` lookup tables become `String → Option ℚ`;
  the `?? default` operator becomes `Option.getD`.
- `Array.prototype.sort` with a comparator is a stable sort (ECMA-262);
  it is modelled by the stable insertion sort `stableSort`.
- Nullable values become `Option`.
-/

namespace SiteGrader

/-- ECMA-262 `Math.round` over the reals: floor of `q + 1/2`. -/
def jsRound (q : ℚ) : ℤ := ⌊q + 1/2⌋

/-- The `impact` enumeration of `analyzers/types.ts`: `"high" | "medium" | "low"`. -/
inductive Impact
| high
| medium
| low
deriving DecidableEq, Repr

/-- The `effort` enumeration of a priority fix: `"quick" | "medium" | "involved"`. -/
inductive Effort
| quick
| medium
| involved
deriving DecidableEq, Repr

/-- The `Finding` from `analyzers/types.ts`: one evaluated check. -/
structure Finding where
  label : String
  pass : Bool
  detail : String
  impact : Impact
deriving DecidableEq, Repr

/-- The `CategoryResult` from `analyzers/types.ts`: the output of one analyzer. -/
structure CategoryResult where
  name : String
  score : ℤ
  findings : List Finding
deriving DecidableEq, Repr

/-- The severity-weight ternary of `calculateCategoryScore`:
`f.impact === "high" ? 30 : f.impact === "medium" ? 20 : 10`. -/
def severityWeight (f : Finding) : ℚ :=
  if f.impact = Impact.high then 30 else if f.impact = Impact.medium then 20 else 10

/-- The loop body of `calculateCategoryScore`: accumulates `(earned, total)`. -/
def scoreStep (acc : ℚ × ℚ) (f : Finding) : ℚ × ℚ :=
  let weight := severityWeight f
  (if f.pass then acc.1 + weight else acc.1, acc.2 + weight)

/-- The `calculateCategoryScore` from `analyzers/types.ts`: weighted pass ratio,
`round(earned / total * 100)`, or 0 when `total === 0`. -/
def calculateCategoryScore (findings : List Finding) : ℤ :=
  let acc := findings.foldl scoreStep (0, 0)
  if acc.2 = 0 then 0 else jsRound (acc.1 / acc.2 * 100)

/-- Specification-side sum: the total severity weight of a findings list. -/
def specTotal (findings : List Finding) : ℚ :=
  (findings.map severityWeight).sum

/-- Specification-side sum: the severity weight earned by passing findings. -/
def specEarned (findings : List Finding) : ℚ :=
  (findings.map (fun f => if f.pass then severityWeight f else 0)).sum

/-- The `GRADE_THRESHOLDS` from the scoring module: descending `(threshold, grade)` pairs. -/
def GRADE_THRESHOLDS : List (ℤ × String) :=
  [(97, "A+"), (93, "A"), (90, "A-"),
   (87, "B+"), (83, "B"), (80, "B-"),
   (77, "C+"), (73, "C"), (70, "C-"),
   (67, "D+"), (63, "D"), (60, "D-")]

/-- The `for ... return` loop of `scoreToGrade`: first threshold met wins. -/
def scoreToGradeGo (score : ℤ) : List (ℤ × String) → String
  | [] => "F"
  | (threshold, grade) :: rest =>
      if score ≥ threshold then grade else scoreToGradeGo score rest

/-- The `scoreToGrade` from the scoring module. -/
def scoreToGrade (score : ℤ) : String :=
  scoreToGradeGo score GRADE_THRESHOLDS

/-- The `gradeColor` from the scoring module: switch on `grade.charAt(0)`
(`charAt(0)` of the empty string matches no case and falls to the default). -/
def gradeColor (grade : String) : String :=
  match grade.data with
  | 'A' :: _ => "#22c55e"
  | 'B' :: _ => "#3b82f6"
  | 'C' :: _ => "#eab308"
  | 'D' :: _ => "#f97316"
  | _ => "#ef4444"

/-- The `CATEGORY_WEIGHTS` from the scoring module. -/
def CATEGORY_WEIGHTS (name : String) : Option ℚ :=
  match name with
  | "Mobile Experience" => some 0.25
  | "Lead Capture" => some 0.25
  | "Trust & Credibility" => some 0.15
  | "Page Speed" => some 0.15
  | "SEO Basics" => some 0.10
  | "Ad Landing Readiness" => some 0.10
  | _ => none

/-- The `SPEND_MIDPOINTS` from the scoring module. -/
def SPEND_MIDPOINTS (bracket : String) : Option ℚ :=
  match bracket with
  | "Under $500" => some 350
  | "$500-$1,000" => some 750
  | "$1,000-$2,500" => some 1750
  | "$2,500-$5,000" => some 3750
  | "$5,000+" => some 6500
  | _ => none

/-- The `INDUSTRY_AD_SPEND` from the scoring module: industry-average monthly
ad spend by trade (the `"Other"` key is present, with value 2000). -/
def INDUSTRY_AD_SPEND (trade : String) : Option ℚ :=
  match trade with
  | "Pool Builder" => some 1500
  | "HVAC" => some 2600
  | "Roofing" => some 1800
  | "Plumbing" => some 2750
  | "Electrical" => some 2000
  | "Landscaping" => some 1500
  | "Painting" => some 1200
  | "General Contractor" => some 2500
  | "Other" => some 2000
  | _ => none

/-- The `WastedSpend` interface from the scoring module. -/
structure WastedSpend where
  low : ℤ
  high : ℤ
  monthlySpend : ℚ
  isEstimated : Bool
deriving DecidableEq, Repr

/-- The `estimateWaste` from the scoring module.  The guard
`if (adSpend && adSpend !== "none")` tests JavaScript truthiness: both
`null` and the empty string are falsy, so both fall through to the
industry-average branch unless the string is exactly `"none"`. -/
def estimateWaste (score : ℤ) (adSpend : Option String) (businessType : String) :
    Option WastedSpend :=
  let finish : ℚ → Bool → Option WastedSpend := fun monthlySpend isEstimated =>
    let wasteFactor : ℚ := ((100 - (score : ℚ)) / 100) * 0.7
    let midWaste := monthlySpend * wasteFactor
    some { low := jsRound (midWaste * 0.8), high := jsRound (midWaste * 1.2),
           monthlySpend := monthlySpend, isEstimated := isEstimated }
  let industryAverage : ℚ :=
    (INDUSTRY_AD_SPEND businessType).getD ((INDUSTRY_AD_SPEND "Other").getD 0)
  match adSpend with
  | some s =>
      if s ≠ "" ∧ s ≠ "none" then
        match SPEND_MIDPOINTS s with
        | none => none
        | some midpoint => finish midpoint false
      else if s = "none" then
        none
      else
        finish industryAverage true
  | none => finish industryAverage true

/-- The `PriorityFix` interface from the scoring module. -/
structure PriorityFix where
  label : String
  detail : String
  effort : Effort
  impact : Impact
deriving DecidableEq, Repr

/-- The `IMPACT_ORDER` from the scoring module. -/
def IMPACT_ORDER : Impact → ℤ
  | Impact.high => 0
  | Impact.medium => 1
  | Impact.low => 2

/-- The `EFFORT_ORDER` from the scoring module. -/
def EFFORT_ORDER : Effort → ℤ
  | Effort.quick => 0
  | Effort.medium => 1
  | Effort.involved => 2

/-- The `effortFromImpact` from the scoring module. -/
def effortFromImpact : Impact → Effort
  | Impact.high => Effort.quick
  | Impact.medium => Effort.medium
  | Impact.low => Effort.involved

/-- The comparator passed to `fixes.sort` in `collectPriorityFixes`:
impact rank first, effort rank as tie-break. -/
def fixCmp (a b : PriorityFix) : ℤ :=
  let impactDiff := IMPACT_ORDER a.impact - IMPACT_ORDER b.impact
  if impactDiff ≠ 0 then impactDiff else EFFORT_ORDER a.effort - EFFORT_ORDER b.effort

/-- Stable insertion: place `x` before the first element it does not
compare strictly after (comparator value ≤ 0 keeps `x` first, which is
what a stable sort does for ties). -/
def stableInsert (cmp : α → α → ℤ) (x : α) : List α → List α
  | [] => [x]
  | y :: ys => if cmp x y ≤ 0 then x :: y :: ys else y :: stableInsert cmp x ys

/-- Stable sort by a JavaScript-style comparator.  ECMA-262 requires
`Array.prototype.sort` to be stable; for a consistent comparator the
stable sorted output is unique, so this insertion sort is an exact model. -/
def stableSort (cmp : α → α → ℤ) (l : List α) : List α :=
  l.foldr (stableInsert cmp) []

/-- The collection loop of `collectPriorityFixes`: every failing finding,
in category order then finding order, mapped to a `PriorityFix`. -/
def collectedFixes (categories : List CategoryResult) : List PriorityFix :=
  categories.flatMap fun cat =>
    (cat.findings.filter fun f => !f.pass).map fun f =>
      { label := f.label, detail := f.detail,
        effort := effortFromImpact f.impact, impact := f.impact }

/-- The `collectPriorityFixes` from the scoring module: collect then stable-sort. -/
def collectPriorityFixes (categories : List CategoryResult) : List PriorityFix :=
  stableSort fixCmp (collectedFixes categories)

/-- The `GradedCategory` interface from the scoring module. -/
structure GradedCategory where
  name : String
  score : ℤ
  grade : String
  gradeColor : String
  findings : List Finding
deriving DecidableEq, Repr

/-- The `GradedReport` interface from the scoring module. -/
structure GradedReport where
  overallScore : ℤ
  overallGrade : String
  categories : List GradedCategory
  priorityFixes : List PriorityFix
  wastedSpend : Option WastedSpend
deriving DecidableEq, Repr

/-- The body of the `categories.map` callback in `gradeReport`, with the
two accumulator mutations (`weightedSum`, `weightTotal`) made explicit. -/
def gradeStep (acc : ℚ × ℚ × List GradedCategory) (cat : CategoryResult) :
    ℚ × ℚ × List GradedCategory :=
  let weight := (CATEGORY_WEIGHTS cat.name).getD 0
  let grade := scoreToGrade cat.score
  (acc.1 + (cat.score : ℚ) * weight,
   acc.2.1 + weight,
   acc.2.2 ++ [{ name := cat.name, score := cat.score, grade := grade,
                 gradeColor := gradeColor grade, findings := cat.findings }])

/-- The `gradeReport` from the scoring module: one pass over the categories
accumulating the weighted sum, the weight total and the graded categories,
then the renormalized overall score, grade, priority fixes and waste estimate. -/
def gradeReport (categories : List CategoryResult) (adSpend : Option String)
    (businessType : String) : GradedReport :=
  let acc := categories.foldl gradeStep (0, 0, [])
  let weightedSum := acc.1
  let weightTotal := acc.2.1
  let overallScore := if weightTotal > 0 then jsRound (weightedSum / weightTotal) else 0
  let overallGrade := scoreToGrade overallScore
  { overallScore := overallScore,
    overallGrade := overallGrade,
    categories := acc.2.2,
    priorityFixes := collectPriorityFixes categories,
    wastedSpend := estimateWaste overallScore adSpend businessType }

/-- Specification-side sum: `Σ score·weight` over a category list. -/
def specWeightedSum (categories : List CategoryResult) : ℚ :=
  (categories.map fun c => (c.score : ℚ) * (CATEGORY_WEIGHTS c.name).getD 0).sum

/-- Specification-side sum: `Σ weight` over a category list. -/
def specWeightTotal (categories : List CategoryResult) : ℚ :=
  (categories.map fun c => (CATEGORY_WEIGHTS c.name).getD 0).sum

/-- The `ParsedPage` from `analyzers/fetch-page.ts`: the regex-derived page
signal bundle consumed by the analyzers. -/
structure ParsedPage where
  html : String
  url : String
  finalUrl : String
  isHttps : Bool
  statusCode : ℤ
  title : String
  metaDescription : String
  h1 : String
  ogTitle : String
  ogDescription : String
  ogImage : String
  phoneNumbers : List String
  hasClickToCall : Bool
  formCount : ℤ
  hasCtaAboveFold : Bool
  ctaCount : ℤ
  navLinkCount : ℤ
  hasTestimonials : Bool
  hasReviews : Bool
  hasLicense : Bool
  hasAboutPage : Bool
  hasRealPhotos : Bool
  imageCount : ℤ
  hasViewportMeta : Bool
  hasResponsiveCSS : Bool
  hasSchema : Bool
  hasLocalSchema : Bool
  mentionsLocation : Bool
  mentionsService : Bool
deriving DecidableEq, Repr

/-- The `PageSpeedResult` from `analyzers/pagespeed.ts` (the untyped `raw`
passthrough field, unused by every analyzer, is omitted). -/
structure PageSpeedResult where
  performanceScore : ℚ
  lcpMs : ℚ
  clsScore : ℚ
  fidMs : ℚ
  fcpMs : ℚ
  speedIndex : ℚ
  ttiMs : ℚ
  totalBytes : ℚ
  imageBytes : ℚ
  scriptBytes : ℚ
  isResponsive : Bool
  viewportSet : Bool
  fontSizeOk : Bool
  tapTargetsOk : Bool
deriving DecidableEq, Repr

/-- The `Number.prototype.toFixed(1)`, for the nonnegative finite values that
occur in the analyzers (round to nearest tenth, one digit printed). -/
def toFixed1 (q : ℚ) : String :=
  let n := jsRound (q * 10)
  toString (n / 10) ++ "." ++ toString (n % 10)

/-- The `Number.prototype.toFixed(2)`, for the nonnegative finite values that
occur in the analyzers. -/
def toFixed2 (q : ℚ) : String :=
  let n := jsRound (q * 100)
  let frac := n % 100
  toString (n / 100) ++ "." ++ (if frac < 10 then "0" ++ toString frac else toString frac)

/-- The `formatBytes` from `analyzers/speed.ts`. -/
def formatBytes (bytes : ℚ) : String :=
  if bytes ≥ 1000000 then
    toFixed1 (bytes / 1000000) ++ "MB"
  else
    toString (jsRound (bytes / 1000)) ++ "KB"

/-- The `analyzeMobile` from the mobile analyzer.  The four cross-check
booleans are computed up front; optional chaining `speed?.flag` is
`false` when `speed` is null, and `!speed` is `Option.isNone`. -/
def analyzeMobile (page : ParsedPage) (speed : Option PageSpeedResult) : CategoryResult :=
  let viewportPass :=
    (match speed with | some s => s.viewportSet | none => false) || page.hasViewportMeta
  let responsivePass :=
    (match speed with | some s => s.isResponsive | none => false) ||
      (page.hasViewportMeta && page.hasResponsiveCSS)
  let fontSizePass :=
    (match speed with | some s => s.fontSizeOk | none => false) ||
      (page.hasResponsiveCSS && speed.isNone)
  let tapTargetsPass :=
    (match speed with | some s => s.tapTargetsOk | none => false) ||
      (page.hasResponsiveCSS && speed.isNone)
  let loadFindings : List Finding :=
    match speed with
    | some s =>
        let loadSec := toFixed1 (s.lcpMs / 1000)
        [{ label := "Mobile load time",
           pass := decide (s.lcpMs < 3000),
           detail :=
             if s.lcpMs < 3000 then
               "Your site loads in " ++ loadSec ++
                 "s on a standard mobile connection. That\x27s solid — most visitors stick around when it loads under 3 seconds."
             else
               "Your site takes " ++ loadSec ++
                 "s to fully load on a standard mobile connection — that\x27s what your customers on spotty cell service or older phones experience. The industry threshold is under 3s. It may feel fast on your WiFi, but over half your ad traffic won\x27t wait that long.",
           impact := Impact.high }]
    | none => []
  let findings : List Finding :=
    loadFindings ++
    [{ label := "Mobile-responsive layout",
       pass := responsivePass,
       detail :=
         if responsivePass then
           "Your site adjusts properly to phone screens. Text and images resize to fit without sideways scrolling."
         else
           "Your site doesn\x27t adapt to phone screens. Visitors have to pinch and zoom, which drives most of them away.",
       impact := Impact.high },
     { label := "Viewport configured",
       pass := viewportPass,
       detail :=
         if viewportPass then
           "Your site tells the phone browser how to size the page correctly. This is a basic but important mobile requirement."
         else
           "Your site is missing the viewport setting that tells phones how to display the page. Without it, the page shows up tiny on mobile screens.",
       impact := Impact.medium },
     { label := "Readable text on mobile",
       pass := fontSizePass,
       detail :=
         if fontSizePass then
           "Text on your site is large enough to read on a phone without zooming in. Customers can easily read your content."
         else
           "Some text on your site is too small to read on a phone. Customers have to zoom in, which is frustrating and makes them more likely to leave.",
       impact := Impact.medium },
     { label := "Tap-friendly buttons",
       pass := tapTargetsPass,
       detail :=
         if tapTargetsPass then
           "Your buttons and links are large enough to tap easily on a phone. No accidental mis-taps for your customers."
         else
           "Some buttons or links on your site are too small or too close together on a phone. Customers will tap the wrong thing, get frustrated, and leave.",
       impact := Impact.medium }]
  { name := "Mobile Experience",
    score := calculateCategoryScore findings,
    findings := findings }

/-- The `analyzeSpeed` from `analyzers/speed.ts`. -/
def analyzeSpeed (speed : Option PageSpeedResult) : CategoryResult :=
  match speed with
  | none =>
      let findings : List Finding :=
        [{ label := "Speed data unavailable",
           pass := false,
           detail :=
             "We couldn\x27t run a detailed speed test on your site right now. This usually means Google\x27s testing service is temporarily unavailable. Try scanning again in a few minutes.",
           impact := Impact.high }]
      { name := "Page Speed", score := 0, findings := findings }
  | some s =>
      let perfPercent := jsRound (s.performanceScore * 100)
      let totalMB := s.totalBytes / 1000000
      let sizeStr := formatBytes s.totalBytes
      let fcpSec := toFixed1 (s.fcpMs / 1000)
      let clsFormatted := toFixed2 s.clsScore
      let fidRounded := jsRound s.fidMs
      let findings : List Finding :=
        [{ label := "Overall performance score",
           pass := decide (s.performanceScore ≥ 0.5),
           detail :=
             if s.performanceScore ≥ 0.5 then
               "Your site scored " ++ toString perfPercent ++
                 " out of 100 on Google\x27s speed test. That\x27s " ++
                 (if s.performanceScore ≥ 0.9 then "excellent" else "acceptable") ++ " — " ++
                 (if s.performanceScore ≥ 0.9 then
                    "Google rewards fast sites with better search rankings."
                  else
                    "but there\x27s room to improve. Faster sites rank higher and convert better.")
             else
               "Your site scored " ++ toString perfPercent ++
                 " out of 100 on Google\x27s speed test. That\x27s below average. Google uses speed as a ranking factor, so this is hurting you in search results and driving away customers.",
           impact := Impact.high },
         { label := "Page weight",
           pass := decide (totalMB < 3),
           detail :=
             if totalMB < 3 then
               "Your page is " ++ sizeStr ++
                 " total. That\x27s a reasonable size — it won\x27t eat up your customers\x27 phone data or take forever on a slow connection."
             else
               "Your page is " ++ sizeStr ++
                 " total. That\x27s heavy — anything over 3MB loads slowly on phone connections. Large images are usually the culprit. Compress your images and your site will load much faster.",
           impact := Impact.high },
         { label := "First paint time",
           pass := decide (s.fcpMs < 2000),
           detail :=
             if s.fcpMs < 2000 then
               "Your site shows something on screen in " ++ fcpSec ++
                 "s. That\x27s fast enough that visitors know the page is loading and stick around."
             else
               "Your site takes " ++ fcpSec ++
                 "s before anything appears on screen. If a visitor sees a blank white page for more than 2 seconds, many assume it\x27s broken and hit the back button.",
           impact := Impact.medium },
         { label := "Layout stability",
           pass := decide (s.clsScore < 0.1),
           detail :=
             if s.clsScore < 0.1 then
               "Your page layout stays stable while loading (shift score: " ++ clsFormatted ++
                 "). Nothing jumps around unexpectedly when customers are trying to read or tap a button."
             else
               "Your page layout shifts around while loading (shift score: " ++ clsFormatted ++
                 "). You know that annoying thing where you try to tap a button and the page jumps? That\x27s happening on your site. It frustrates customers and Google penalizes it.",
           impact := Impact.medium },
         { label := "Interactivity speed",
           pass := decide (s.fidMs < 300),
           detail :=
             if s.fidMs < 300 then
               "Your site responds to taps and clicks in " ++ toString fidRounded ++
                 "ms. That feels snappy — customers won\x27t notice any delay."
             else
               "Your site takes " ++ toString fidRounded ++
                 "ms to respond after someone taps a button. Anything over 300ms feels sluggish. Usually this means the site is running too much code in the background.",
           impact := Impact.low }]
      { name := "Page Speed",
        score := calculateCategoryScore findings,
        findings := findings }

/-- The `analyzeAdReadiness` from the Ad Landing Readiness analyzer.  Note the
returned category name in the source is the string `"Ad Readiness"`. -/
def analyzeAdReadiness (page : ParsedPage) (speed : Option PageSpeedResult)
    (businessType : String) : CategoryResult :=
  let loadFindings : List Finding :=
    match speed with
    | some s =>
        let loadSec := toFixed1 (s.lcpMs / 1000)
        [{ label := "Ad click load time",
           pass := decide (s.lcpMs < 4000),
           detail :=
             if s.lcpMs < 4000 then
               "Your site loads in " ++ loadSec ++
                 "s after an ad click. That\x27s fast enough to keep most paid visitors on the page."
             else
               "Your site takes " ++ loadSec ++
                 "s to load after an ad click. You\x27re paying for every click — and at " ++
                 loadSec ++
                 "s, a big chunk of those paid visitors leave before the page even finishes loading. Every second of delay cuts your conversion rate.",
           impact := Impact.high }]
    | none => []
  let tooManyNavLinks := decide (page.navLinkCount > 8)
  let tooFewCtas := decide (page.ctaCount < 2)
  let isDistracted := tooManyNavLinks && tooFewCtas
  let findings : List Finding :=
    [{ label := "Service mentioned above the fold",
       pass := page.mentionsService,
       detail :=
         if page.mentionsService then
           "Your site mentions your service right away. When someone clicks an ad for \"" ++
             businessType.toLower ++ ",\" they immediately see that they\x27re in the right place."
         else
           "We didn\x27t find your service mentioned prominently on the page. When someone clicks an ad for \"" ++
             businessType.toLower ++
             "\" and doesn\x27t immediately see that word on your site, they hit the back button. Make sure your headline says exactly what you do.",
       impact := Impact.high },
     { label := "Service area mentioned",
       pass := page.mentionsLocation,
       detail :=
         if page.mentionsLocation then
           "Your site mentions your service area. Customers who click a local ad want to confirm you work in their area — and you make that clear."
         else
           "We didn\x27t find any mention of your service area or city on the page. When someone searches for \"roofer near me\" and clicks your ad, they need to see their city or neighborhood on your site. Otherwise they assume you don\x27t serve their area.",
       impact := Impact.high }] ++
    loadFindings ++
    [{ label := "Page focus and clarity",
       pass := !isDistracted,
       detail :=
         if !isDistracted then
           "Your page stays focused. It doesn\x27t overwhelm visitors with too many navigation options, and it has clear calls-to-action. That\x27s what you want for paid traffic."
         else
           "Your page has " ++ toString page.navLinkCount ++
             " navigation links but only " ++
             (if page.ctaCount = 0 then "zero" else toString page.ctaCount) ++
             " call-to-action" ++ (if page.ctaCount = 1 then "" else "s") ++
             ". When you\x27re paying for clicks, you want visitors focused on contacting you — not browsing around. Simplify the navigation and add more \"Get a Quote\" or \"Call Now\" buttons.",
       impact := Impact.medium }]
  { name := "Ad Readiness",
    score := calculateCategoryScore findings,
    findings := findings }

/-- The raw shape of one item of the JSON array returned by the AI model
(`AiFinding` in the AI-review module): the impact is an unvalidated string. -/
structure AiFinding where
  label : String
  pass : Bool
  detail : String
  impact : String
deriving DecidableEq, Repr

/-- The per-item validation of `runAiReview`: keep an item whose impact is
one of `"high" | "medium" | "low"`, casting the impact string to the
enumeration (the source filters then casts; modelled as one partial map). -/
def validateAiFinding (f : AiFinding) : Option Finding :=
  if f.impact = "high" then
    some { label := f.label, pass := f.pass, detail := f.detail, impact := Impact.high }
  else if f.impact = "medium" then
    some { label := f.label, pass := f.pass, detail := f.detail, impact := Impact.medium }
  else if f.impact = "low" then
    some { label := f.label, pass := f.pass, detail := f.detail, impact := Impact.low }
  else
    none

/-- The response-validation tail of `runAiReview` (after `JSON.parse`):
reject an empty array, keep only the valid items, reject the result if
nothing valid remains, and otherwise build the `"Content Quality"`
category with `calculateCategoryScore`. -/
def aiFindingsToCategory (parsed : List AiFinding) : Option CategoryResult :=
  if parsed.isEmpty then
    none
  else
    let findings : List Finding := parsed.filterMap validateAiFinding
    if findings.isEmpty then
      none
    else
      some { name := "Content Quality",
             score := calculateCategoryScore findings,
             findings := findings }

/-- The effort of a failing finding is the fixed function of its impact — true of
every fix `collectPriorityFixes` constructs. -/
def CoupledFix (f : PriorityFix) : Prop :=
  f.effort = effortFromImpact f.impact

/-- The unique stable sort of a fix list by impact rank: the high-impact
fixes in input order, then the medium-impact ones, then the low-impact ones. -/
def impactBucket (l : List PriorityFix) : List PriorityFix :=
  (l.filter fun f => f.impact == Impact.high) ++
    (l.filter fun f => f.impact == Impact.medium) ++
      (l.filter fun f => f.impact == Impact.low)

/-- A concrete page-signal bundle (responsive CSS and viewport meta present). -/
def samplePage : ParsedPage :=
  { html := "", url := "https://example.com", finalUrl := "https://example.com",
    isHttps := true, statusCode := 200, title := "", metaDescription := "", h1 := "",
    ogTitle := "", ogDescription := "", ogImage := "", phoneNumbers := [],
    hasClickToCall := false, formCount := 0, hasCtaAboveFold := false, ctaCount := 0,
    navLinkCount := 0, hasTestimonials := false, hasReviews := false, hasLicense := false,
    hasAboutPage := false, hasRealPhotos := false, imageCount := 0,
    hasViewportMeta := true, hasResponsiveCSS := true, hasSchema := false,
    hasLocalSchema := false, mentionsLocation := true, mentionsService := true }

/-- A concrete performance-metric bundle whose font-size and tap-target
flags fail while everything else passes. -/
def sampleSpeedBadFont : PageSpeedResult :=
  { performanceScore := 0.9, lcpMs := 2000, clsScore := 0.05, fidMs := 100,
    fcpMs := 1000, speedIndex := 2000, ttiMs := 2500, totalBytes := 1000000,
    imageBytes := 500000, scriptBytes := 200000, isResponsive := true,
    viewportSet := true, fontSizeOk := false, tapTargetsOk := false }

/-- A concrete well-formed 5-item AI response. -/
def aiSampleParsed : List AiFinding :=
  [{ label := "Headline clarity", pass := true, detail := "Clear hero", impact := "high" },
   { label := "CTA persuasiveness", pass := false, detail := "Generic CTA", impact := "high" },
   { label := "Value proposition", pass := true, detail := "Strong offer", impact := "medium" },
   { label := "Industry messaging", pass := true, detail := "On trade", impact := "medium" },
   { label := "Trust language", pass := false, detail := "Thin copy", impact := "low" }]

/-- The validated findings of `aiSampleParsed`. -/
def aiSampleValidated : List Finding :=
  [{ label := "Headline clarity", pass := true, detail := "Clear hero", impact := Impact.high },
   { label := "CTA persuasiveness", pass := false, detail := "Generic CTA", impact := Impact.high },
   { label := "Value proposition", pass := true, detail := "Strong offer", impact := Impact.medium },
   { label := "Industry messaging", pass := true, detail := "On trade", impact := Impact.medium },
   { label := "Trust language", pass := false, detail := "Thin copy", impact := Impact.low }]

/-- The category `aiFindingsToCategory` builds from `aiSampleParsed`. -/
def aiSampleCat : CategoryResult :=
  { name := "Content Quality",
    score := calculateCategoryScore aiSampleValidated,
    findings := aiSampleValidated }

/- ------------------------------------------------------------------ -/
/-  Supporting lemmas                                                 -/
/- ------------------------------------------------------------------ -/

theorem severityWeight_pos (f : Finding) : 0 < severityWeight f := by
  unfold severityWeight
  split_ifs <;> norm_num

theorem scoreFold_eq (l : List Finding) (a b : ℚ) :
    l.foldl scoreStep (a, b) = (a + specEarned l, b + specTotal l) := by
  induction l generalizing a b with
  | nil => simp [specEarned, specTotal]
  | cons f t ih =>
      simp only [List.foldl_cons, scoreStep, specEarned, specTotal,
        List.map_cons, List.sum_cons]
      rw [ih]
      by_cases hp : f.pass <;>
        simp only [hp, if_true, if_false, Bool.false_eq_true, ite_false, Prod.mk.injEq,
          specEarned, specTotal] <;>
        constructor <;> ring

theorem specTotal_nonneg (l : List Finding) : 0 ≤ specTotal l := by
  apply List.sum_nonneg
  intro x hx
  simp only [specTotal, List.mem_map] at hx
  obtain ⟨f, _, rfl⟩ := hx
  exact le_of_lt (severityWeight_pos f)

theorem specEarned_nonneg (l : List Finding) : 0 ≤ specEarned l := by
  apply List.sum_nonneg
  intro x hx
  simp only [specEarned, List.mem_map] at hx
  obtain ⟨f, _, rfl⟩ := hx
  split_ifs
  · exact le_of_lt (severityWeight_pos f)
  · exact le_refl 0

theorem specEarned_le_specTotal (l : List Finding) : specEarned l ≤ specTotal l := by
  unfold specEarned specTotal
  apply List.sum_le_sum
  intro f _
  split_ifs
  · exact le_refl _
  · exact le_of_lt (severityWeight_pos f)

theorem jsRound_nonneg {q : ℚ} (h : 0 ≤ q) : 0 ≤ jsRound q := by
  apply Int.le_floor.mpr
  have : (0 : ℚ) ≤ q + 1/2 := by linarith
  exact_mod_cast this

theorem jsRound_le_of_le {q : ℚ} {n : ℤ} (h : q ≤ (n : ℚ)) : jsRound q ≤ n := by
  rw [jsRound, Int.floor_le_iff]
  linarith

/- ------------------------------------------------------------------ -/
/-  Claim theorems                                                    -/
/- ------------------------------------------------------------------ -/

/-- C2: for every findings list, `calculateCategoryScore` equals
`round(earned / total * 100)` where each finding weighs 30 (high), 20
(medium) or 10 (low), `total` sums all weights and `earned` the weights of
passing findings; it returns 0 when the total is zero (in particular on
the empty list) and its result always lies in [0, 100]. -/
theorem calculateCategoryScore_spec (findings : List Finding) :
    calculateCategoryScore findings =
      (if specTotal findings = 0 then 0
       else jsRound (specEarned findings / specTotal findings * 100))
    ∧ 0 ≤ calculateCategoryScore findings
    ∧ calculateCategoryScore findings ≤ 100
    ∧ calculateCategoryScore [] = 0 := by
  have heq : calculateCategoryScore findings =
      (if specTotal findings = 0 then 0
       else jsRound (specEarned findings / specTotal findings * 100)) := by
    unfold calculateCategoryScore
    rw [scoreFold_eq findings 0 0]
    simp
  refine ⟨heq, ?_, ?_, rfl⟩
  · rw [heq]
    split_ifs with h
    · exact le_refl 0
    · have ht : 0 < specTotal findings :=
        lt_of_le_of_ne (specTotal_nonneg findings) (Ne.symm h)
      exact jsRound_nonneg
        (mul_nonneg (div_nonneg (specEarned_nonneg findings) (le_of_lt ht)) (by norm_num))
  · rw [heq]
    split_ifs with h
    · norm_num
    · have ht : 0 < specTotal findings :=
        lt_of_le_of_ne (specTotal_nonneg findings) (Ne.symm h)
      have hle : specEarned findings / specTotal findings ≤ 1 :=
        (div_le_one ht).mpr (specEarned_le_specTotal findings)
      apply jsRound_le_of_le
      push_cast
      nlinarith [hle]

theorem scoreToGradeGo_of_lt (s : ℤ) (tbl : List (ℤ × String))
    (h : ∀ p ∈ tbl, s < p.1) : scoreToGradeGo s tbl = "F" := by
  induction tbl with
  | nil => rfl
  | cons p rest ih =>
      obtain ⟨t, g⟩ := p
      have ht := h (t, g) (by simp)
      show (if s ≥ t then g else scoreToGradeGo s rest) = "F"
      rw [if_neg (by simp at ht; omega)]
      exact ih fun q hq => h q (by simp [hq])

theorem scoreToGrade_unfold (s : ℤ) :
    scoreToGrade s =
      if s ≥ 97 then "A+" else if s ≥ 93 then "A" else if s ≥ 90 then "A-"
      else if s ≥ 87 then "B+" else if s ≥ 83 then "B" else if s ≥ 80 then "B-"
      else if s ≥ 77 then "C+" else if s ≥ 73 then "C" else if s ≥ 70 then "C-"
      else if s ≥ 67 then "D+" else if s ≥ 63 then "D" else if s ≥ 60 then "D-"
      else "F" := rfl

/-- C6: `scoreToGrade` is total over all integers and returns the grade of
the first entry of the descending threshold table whose threshold the score
meets or exceeds — A+ at 97 and above, F below 60 (negatives included). -/
theorem scoreToGrade_spec (s : ℤ) :
    (97 ≤ s → scoreToGrade s = "A+")
    ∧ (93 ≤ s → s < 97 → scoreToGrade s = "A")
    ∧ (90 ≤ s → s < 93 → scoreToGrade s = "A-")
    ∧ (87 ≤ s → s < 90 → scoreToGrade s = "B+")
    ∧ (83 ≤ s → s < 87 → scoreToGrade s = "B")
    ∧ (80 ≤ s → s < 83 → scoreToGrade s = "B-")
    ∧ (77 ≤ s → s < 80 → scoreToGrade s = "C+")
    ∧ (73 ≤ s → s < 77 → scoreToGrade s = "C")
    ∧ (70 ≤ s → s < 73 → scoreToGrade s = "C-")
    ∧ (67 ≤ s → s < 70 → scoreToGrade s = "D+")
    ∧ (63 ≤ s → s < 67 → scoreToGrade s = "D")
    ∧ (60 ≤ s → s < 63 → scoreToGrade s = "D-")
    ∧ (s < 60 → scoreToGrade s = "F") := by
  refine ⟨?_, ?_, ?_, ?_, ?_, ?_, ?_, ?_, ?_, ?_, ?_, ?_, ?_⟩
  · intro h
    rw [scoreToGrade_unfold, if_pos (by omega)]
  · intro h1 h2
    interval_cases s <;> rfl
  · intro h1 h2
    interval_cases s <;> rfl
  · intro h1 h2
    interval_cases s <;> rfl
  · intro h1 h2
    interval_cases s <;> rfl
  · intro h1 h2
    interval_cases s <;> rfl
  · intro h1 h2
    interval_cases s <;> rfl
  · intro h1 h2
    interval_cases s <;> rfl
  · intro h1 h2
    interval_cases s <;> rfl
  · intro h1 h2
    interval_cases s <;> rfl
  · intro h1 h2
    interval_cases s <;> rfl
  · intro h1 h2
    interval_cases s <;> rfl
  · intro h
    apply scoreToGradeGo_of_lt
    intro p hp
    simp only [GRADE_THRESHOLDS] at hp
    fin_cases hp <;> norm_num <;> omega

/-- C6 witness: concrete evaluations of `scoreToGrade` through the spec
theorem at 100, 68 and -5. -/
theorem scoreToGrade_spec_witness :
    scoreToGrade 100 = "A+" ∧ scoreToGrade 68 = "D+" ∧ scoreToGrade (-5) = "F" := by
  refine ⟨(scoreToGrade_spec 100).1 (by norm_num), ?_, ?_⟩
  · exact (scoreToGrade_spec 68).2.2.2.2.2.2.2.2.2.1 (by norm_num) (by norm_num)
  · exact (scoreToGrade_spec (-5)).2.2.2.2.2.2.2.2.2.2.2.2 (by norm_num)

/-- C9: with an absent performance-metric source, `analyzeSpeed` returns
the `Page Speed` category whose findings are exactly one synthetic failing
finding (speed data unavailable, impact high) and whose score is forced
to 0. -/
theorem analyzeSpeed_null_spec :
    analyzeSpeed none =
      { name := "Page Speed",
        score := 0,
        findings :=
          [{ label := "Speed data unavailable",
             pass := false,
             detail :=
               "We couldn\x27t run a detailed speed test on your site right now. This usually means Google\x27s testing service is temporarily unavailable. Try scanning again in a few minutes.",
             impact := Impact.high }] } := rfl

/-- C3: the Ad Landing Readiness analyzer names its output category
`"Ad Readiness"`, which the weight table of the grading engine does not
recognize — the category therefore receives weight 0, not the 0.10 the
table reserves for `"Ad Landing Readiness"`. -/
theorem analyzeAdReadiness_name_mismatch :
    (analyzeAdReadiness samplePage none "HVAC").name = "Ad Readiness"
    ∧ CATEGORY_WEIGHTS "Ad Readiness" = none
    ∧ (CATEGORY_WEIGHTS (analyzeAdReadiness samplePage none "HVAC").name).getD 0 = 0
    ∧ CATEGORY_WEIGHTS "Ad Landing Readiness" = some 0.10 :=
  ⟨rfl, rfl, rfl, rfl⟩

theorem gradeFold_eq (l : List CategoryResult) (a b : ℚ) (g : List GradedCategory) :
    (l.foldl gradeStep (a, b, g)).1 = a + specWeightedSum l
    ∧ (l.foldl gradeStep (a, b, g)).2.1 = b + specWeightTotal l := by
  induction l generalizing a b g with
  | nil => simp [specWeightedSum, specWeightTotal]
  | cons c t ih =>
      simp only [List.foldl_cons, gradeStep, specWeightedSum, specWeightTotal,
        List.map_cons, List.sum_cons]
      constructor
      · rw [(ih _ _ _).1]
        unfold specWeightedSum
        ring
      · rw [(ih _ _ _).2]
        unfold specWeightTotal
        ring

/-- C1: `gradeReport` computes the overall score as the renormalized
weighted average — each category contributes `score * weight` with the
weight looked up by name (0 when the name is unrecognized), and the
overall score is `round(weightedSum / weightTotal)` when the weight total
is positive, else 0; in particular, when no category name is recognized the
report carries overall score 0 and overall grade F. -/
theorem gradeReport_overall_spec (cats : List CategoryResult) (adSpend : Option String)
    (businessType : String) :
    (gradeReport cats adSpend businessType).overallScore =
      (if specWeightTotal cats > 0
       then jsRound (specWeightedSum cats / specWeightTotal cats) else 0)
    ∧ ((∀ c ∈ cats, CATEGORY_WEIGHTS c.name = none) →
        (gradeReport cats adSpend businessType).overallScore = 0
        ∧ (gradeReport cats adSpend businessType).overallGrade = "F") := by
  obtain ⟨h1, h2⟩ := gradeFold_eq cats 0 0 []
  have hs : (gradeReport cats adSpend businessType).overallScore =
      (if specWeightTotal cats > 0
       then jsRound (specWeightedSum cats / specWeightTotal cats) else 0) := by
    simp only [gradeReport]
    rw [h1, h2]
    simp
  refine ⟨hs, fun hall => ?_⟩
  have htot : specWeightTotal cats = 0 := by
    apply List.sum_eq_zero
    intro x hx
    simp only [specWeightTotal, List.mem_map] at hx
    obtain ⟨c, hc, rfl⟩ := hx
    rw [hall c hc]
    rfl
  have hz : (gradeReport cats adSpend businessType).overallScore = 0 := by
    rw [hs, htot]
    simp
  refine ⟨hz, ?_⟩
  have hg : (gradeReport cats adSpend businessType).overallGrade =
      scoreToGrade (gradeReport cats adSpend businessType).overallScore := rfl
  rw [hg, hz]
  rfl

/-- C1 witness: grading a single category with an unrecognized name yields
overall score 0 and grade F. -/
theorem gradeReport_overall_spec_witness :
    (gradeReport [{ name := "Content Score", score := 80, findings := [] }]
        none "HVAC").overallScore = 0
    ∧ (gradeReport [{ name := "Content Score", score := 80, findings := [] }]
        none "HVAC").overallGrade = "F" :=
  (gradeReport_overall_spec [{ name := "Content Score", score := 80, findings := [] }]
      none "HVAC").2
    (by
      intro c hc
      rw [List.mem_singleton] at hc
      subst hc
      rfl)

/-- C5 (amended): `estimateWaste` returns null for the explicit `"none"`
bracket, the fixed midpoint with `isEstimated = false` for a recognized
bracket, the per-trade industry average (default 2000) with
`isEstimated = true` when no bracket is given, and null for a given
**nonempty** bracket that is neither `"none"` nor a table entry (the empty
string, being falsy, instead takes the industry-average path); every
non-null estimate carries `low = round(monthlySpend * ((100-score)/100 * 0.7) * 0.8)`
and `high = round(monthlySpend * ((100-score)/100 * 0.7) * 1.2)`. -/
theorem estimateWaste_spec (score : ℤ) (bt s : String) (asp : Option String) :
    estimateWaste score (some "none") bt = none
    ∧ estimateWaste score (some "$1,000-$2,500") bt =
        some { low := jsRound (1750 * (((100 - (score : ℚ)) / 100) * 0.7) * 0.8),
               high := jsRound (1750 * (((100 - (score : ℚ)) / 100) * 0.7) * 1.2),
               monthlySpend := 1750, isEstimated := false }
    ∧ estimateWaste score none "HVAC" =
        some { low := jsRound (2600 * (((100 - (score : ℚ)) / 100) * 0.7) * 0.8),
               high := jsRound (2600 * (((100 - (score : ℚ)) / 100) * 0.7) * 1.2),
               monthlySpend := 2600, isEstimated := true }
    ∧ (INDUSTRY_AD_SPEND bt = none →
        estimateWaste score none bt =
          some { low := jsRound (2000 * (((100 - (score : ℚ)) / 100) * 0.7) * 0.8),
                 high := jsRound (2000 * (((100 - (score : ℚ)) / 100) * 0.7) * 1.2),
                 monthlySpend := 2000, isEstimated := true })
    ∧ (s ≠ "" → s ≠ "none" → SPEND_MIDPOINTS s = none →
        estimateWaste score (some s) bt = none)
    ∧ (∀ w, estimateWaste score asp bt = some w →
        w.low = jsRound (w.monthlySpend * (((100 - (score : ℚ)) / 100) * 0.7) * 0.8)
        ∧ w.high = jsRound (w.monthlySpend * (((100 - (score : ℚ)) / 100) * 0.7) * 1.2)) := by
  refine ⟨?_, ?_, ?_, ?_, ?_, ?_⟩
  · simp [estimateWaste]
  · simp [estimateWaste, SPEND_MIDPOINTS]
  · simp [estimateWaste, INDUSTRY_AD_SPEND]
  · intro h
    simp only [estimateWaste]
    rw [h]
    rfl
  · intro h1 h2 h3
    simp [estimateWaste, h1, h2, h3]
  · intro w hw
    match asp with
    | none =>
        simp only [estimateWaste, Option.some.injEq] at hw
        subst hw
        exact ⟨rfl, rfl⟩
    | some s' =>
        by_cases hne : s' ≠ "" ∧ s' ≠ "none"
        · simp only [estimateWaste, if_pos hne] at hw
          match hm : SPEND_MIDPOINTS s' with
          | none =>
              rw [hm] at hw
              exact absurd hw (by simp)
          | some mp =>
              rw [hm] at hw
              simp only [Option.some.injEq] at hw
              subst hw
              exact ⟨rfl, rfl⟩
        · by_cases hnone : s' = "none"
          · simp only [estimateWaste, hnone] at hw
            exact absurd hw (by simp)
          · simp only [estimateWaste, if_neg hne, if_neg hnone, Option.some.injEq] at hw
            subst hw
            exact ⟨rfl, rfl⟩

/-- C5 witness: the spec theorem instantiated at score 80, trade "Quux"
(not in the industry table) and the unrecognized nonempty bracket "bogus". -/
theorem estimateWaste_spec_witness :
    estimateWaste 80 (some "none") "Quux" = none
    ∧ estimateWaste 80 none "Quux" =
        some { low := jsRound (2000 * (((100 - (80 : ℚ)) / 100) * 0.7) * 0.8),
               high := jsRound (2000 * (((100 - (80 : ℚ)) / 100) * 0.7) * 1.2),
               monthlySpend := 2000, isEstimated := true }
    ∧ estimateWaste 80 (some "bogus") "Quux" = none := by
  obtain ⟨h1, _, _, h4, h5, _⟩ := estimateWaste_spec 80 "Quux" "bogus" (some "none")
  refine ⟨h1, ?_, h5 (by decide) (by decide) rfl⟩
  have := h4 rfl
  exact_mod_cast this

/-- C5 counterexample: the empty-string bracket is given, is not `"none"`
and is not in the midpoint table, yet the estimate is not null — it takes
the industry-average path. -/
theorem estimateWaste_empty_bracket_not_null :
    SPEND_MIDPOINTS "" = none
    ∧ ("" : String) ≠ "none"
    ∧ estimateWaste 60 (some "") "HVAC" =
        some { low := 582, high := 874, monthlySpend := 2600, isEstimated := true } := by
  refine ⟨rfl, by decide, ?_⟩
  simp only [estimateWaste]
  rw [if_neg (by decide), if_neg (by decide)]
  norm_num [jsRound, INDUSTRY_AD_SPEND]

/-- C10: `estimateWaste` treats the empty-string bracket exactly like the
absent bracket: the result is non-null, `isEstimated = true`, and the
monthly spend comes from the industry-average table (default 2000). -/
theorem estimateWaste_empty_string_spec (score : ℤ) (bt : String) :
    estimateWaste score (some "") bt = estimateWaste score none bt
    ∧ estimateWaste score (some "") bt =
        some { low := jsRound (((INDUSTRY_AD_SPEND bt).getD 2000) *
                 (((100 - (score : ℚ)) / 100) * 0.7) * 0.8),
               high := jsRound (((INDUSTRY_AD_SPEND bt).getD 2000) *
                 (((100 - (score : ℚ)) / 100) * 0.7) * 1.2),
               monthlySpend := (INDUSTRY_AD_SPEND bt).getD 2000,
               isEstimated := true } := by
  have hoth : (INDUSTRY_AD_SPEND bt).getD ((INDUSTRY_AD_SPEND "Other").getD 0) =
      (INDUSTRY_AD_SPEND bt).getD 2000 := rfl
  constructor
  · simp [estimateWaste]
  · simp only [estimateWaste]
    rw [hoth]
    simp

/-- C7 (amended): with a present performance-metric bundle, the Mobile
Experience analyzer cross-checks the responsive-layout signal (fallback:
viewport meta and responsive CSS) and the viewport signal (fallback:
viewport meta) against the page, passing when either source passes; the
readable-font-size and tap-target signals follow the metric flags alone —
their page-derived fallback applies only when the bundle is absent. -/
theorem analyzeMobile_crosscheck_spec (page : ParsedPage) (s : PageSpeedResult) :
    ((analyzeMobile page (some s)).findings.map fun f => (f.label, f.pass)) =
      [("Mobile load time", decide (s.lcpMs < 3000)),
       ("Mobile-responsive layout",
         s.isResponsive || (page.hasViewportMeta && page.hasResponsiveCSS)),
       ("Viewport configured", s.viewportSet || page.hasViewportMeta),
       ("Readable text on mobile", s.fontSizeOk),
       ("Tap-friendly buttons", s.tapTargetsOk)] := by
  simp [analyzeMobile]

/-- C7 counterexample: a page whose responsive-CSS fallback passes, scanned
with a present metric bundle whose font-size and tap-target flags fail —
the analyzer fails both findings anyway, so the cross-check does not cover
those two signals. -/
theorem analyzeMobile_fallback_ignored :
    samplePage.hasResponsiveCSS = true
    ∧ ((analyzeMobile samplePage (some sampleSpeedBadFont)).findings.map
        fun f => (f.label, f.pass)) =
      [("Mobile load time", true),
       ("Mobile-responsive layout", true),
       ("Viewport configured", true),
       ("Readable text on mobile", false),
       ("Tap-friendly buttons", false)] := by
  refine ⟨rfl, ?_⟩
  rw [analyzeMobile_crosscheck_spec]
  norm_num [samplePage, sampleSpeedBadFont]

/-- C8 (amended): a non-null result of the AI-review validation is always
the `Content Quality` category whose score is `calculateCategoryScore` of
its findings, with at least one and at most `parsed.length` validated
findings — the exactly-5 count promised by the contract is not enforced. -/
theorem aiFindingsToCategory_spec (parsed : List AiFinding) (cat : CategoryResult)
    (h : aiFindingsToCategory parsed = some cat) :
    cat.name = "Content Quality"
    ∧ 1 ≤ cat.findings.length
    ∧ cat.findings.length ≤ parsed.length
    ∧ cat.score = calculateCategoryScore cat.findings := by
  unfold aiFindingsToCategory at h
  by_cases h1 : parsed.isEmpty
  · rw [if_pos h1] at h
    exact absurd h (by simp)
  · simp only [if_neg h1] at h
    by_cases h2 : (parsed.filterMap validateAiFinding).isEmpty
    · rw [if_pos h2] at h
      exact absurd h (by simp)
    · rw [if_neg h2] at h
      obtain rfl := (Option.some.inj h).symm
      refine ⟨rfl, ?_, ?_, rfl⟩
      · have hne := (List.isEmpty_eq_false (l := parsed.filterMap validateAiFinding)).mp
          (by simpa using h2)
        have hpos := List.length_pos.mpr hne
        show 1 ≤ (parsed.filterMap validateAiFinding).length
        omega
      · exact List.length_filterMap_le _ _

/-- C8 witness: the spec theorem applied to a concrete well-formed
five-item response. -/
theorem aiFindingsToCategory_spec_witness :
    aiSampleCat.name = "Content Quality"
    ∧ 1 ≤ aiSampleCat.findings.length
    ∧ aiSampleCat.findings.length ≤ aiSampleParsed.length
    ∧ aiSampleCat.score = calculateCategoryScore aiSampleCat.findings :=
  aiFindingsToCategory_spec aiSampleParsed aiSampleCat rfl

/-- C8 counterexample: a parsed response with a single valid finding is
accepted and merged with one finding, not five. -/
theorem aiFindingsToCategory_single_finding :
    ((aiFindingsToCategory
        [{ label := "Headline clarity", pass := true, detail := "ok", impact := "high" }]).map
      fun c => c.findings.length) = some 1
    ∧ (1 : ℕ) ≠ 5 :=
  ⟨rfl, by decide⟩

theorem EFFORT_ORDER_effortFromImpact (i : Impact) :
    EFFORT_ORDER (effortFromImpact i) = IMPACT_ORDER i := by
  cases i <;> rfl

theorem fixCmp_coupled {a b : PriorityFix} (ha : CoupledFix a) (hb : CoupledFix b) :
    fixCmp a b = IMPACT_ORDER a.impact - IMPACT_ORDER b.impact := by
  show (if IMPACT_ORDER a.impact - IMPACT_ORDER b.impact ≠ 0
        then IMPACT_ORDER a.impact - IMPACT_ORDER b.impact
        else EFFORT_ORDER a.effort - EFFORT_ORDER b.effort) =
      IMPACT_ORDER a.impact - IMPACT_ORDER b.impact
  split_ifs with h
  · rfl
  · rw [ha, hb, EFFORT_ORDER_effortFromImpact, EFFORT_ORDER_effortFromImpact]

theorem stableInsert_cons {α : Type} (cmp : α → α → ℤ) (x y : α) (l : List α) :
    stableInsert cmp x (y :: l) =
      if cmp x y ≤ 0 then x :: y :: l else y :: stableInsert cmp x l := rfl

theorem stableInsert_eq_cons {α : Type} {cmp : α → α → ℤ} {x : α} {l : List α}
    (h : ∀ y ∈ l, cmp x y ≤ 0) : stableInsert cmp x l = x :: l := by
  cases l with
  | nil => rfl
  | cons y ys =>
      rw [stableInsert_cons, if_pos (h y (by simp))]

theorem stableInsert_append {α : Type} {cmp : α → α → ℤ} {x : α} {A L : List α}
    (h : ∀ y ∈ A, ¬ cmp x y ≤ 0) :
    stableInsert cmp x (A ++ L) = A ++ stableInsert cmp x L := by
  induction A with
  | nil => rfl
  | cons y ys ih =>
      rw [List.cons_append, stableInsert_cons, if_neg (h y (by simp)),
        ih (fun z hz => h z (by simp [hz])), List.cons_append]

theorem IMPACT_ORDER_nonneg (i : Impact) : 0 ≤ IMPACT_ORDER i := by
  cases i <;> decide

theorem mem_impactBucket {f : PriorityFix} {l : List PriorityFix} :
    f ∈ impactBucket l → f ∈ l := by
  intro hf
  unfold impactBucket at hf
  simp only [List.mem_append, List.mem_filter] at hf
  rcases hf with (⟨h, _⟩ | ⟨h, _⟩) | ⟨h, _⟩ <;> exact h

theorem stableSort_fixCmp_bucket (l : List PriorityFix) (hc : ∀ f ∈ l, CoupledFix f) :
    stableSort fixCmp l = impactBucket l := by
  induction l with
  | nil => rfl
  | cons x t ih =>
      have hx : CoupledFix x := hc x (by simp)
      have hct : ∀ f ∈ t, CoupledFix f := fun f hf => hc f (by simp [hf])
      have hstep : stableSort fixCmp (x :: t) = stableInsert fixCmp x (stableSort fixCmp t) := rfl
      rw [hstep, ih hct]
      unfold impactBucket
      cases him : x.impact with
      | high =>
          have hall : ∀ y ∈ (t.filter fun f => f.impact == Impact.high) ++
              (t.filter fun f => f.impact == Impact.medium) ++
                (t.filter fun f => f.impact == Impact.low), fixCmp x y ≤ 0 := by
            intro y hy
            have hyt : y ∈ t := by
              simp only [List.mem_append, List.mem_filter] at hy
              rcases hy with (⟨h, _⟩ | ⟨h, _⟩) | ⟨h, _⟩ <;> exact h
            rw [fixCmp_coupled hx (hct y hyt), him]
            have := IMPACT_ORDER_nonneg y.impact
            have h0 : IMPACT_ORDER Impact.high = 0 := rfl
            omega
          rw [stableInsert_eq_cons hall]
          simp [List.filter_cons, him]
      | medium =>
          have hA : ∀ y ∈ (t.filter fun f => f.impact == Impact.high),
              ¬ fixCmp x y ≤ 0 := by
            intro y hy
            simp only [List.mem_filter, beq_iff_eq] at hy
            rw [fixCmp_coupled hx (hct y hy.1), him, hy.2]
            decide
          have hrest : ∀ y ∈ (t.filter fun f => f.impact == Impact.medium) ++
              (t.filter fun f => f.impact == Impact.low), fixCmp x y ≤ 0 := by
            intro y hy
            simp only [List.mem_append, List.mem_filter, beq_iff_eq] at hy
            have hyt : y ∈ t := by rcases hy with ⟨h, _⟩ | ⟨h, _⟩ <;> exact h
            rw [fixCmp_coupled hx (hct y hyt), him]
            rcases hy with ⟨_, hi⟩ | ⟨_, hi⟩ <;> rw [hi] <;> decide
          rw [List.append_assoc, stableInsert_append hA, stableInsert_eq_cons hrest]
          simp [List.filter_cons, him]
      | low =>
          have hA : ∀ y ∈ (t.filter fun f => f.impact == Impact.high) ++
              (t.filter fun f => f.impact == Impact.medium), ¬ fixCmp x y ≤ 0 := by
            intro y hy
            simp only [List.mem_append, List.mem_filter, beq_iff_eq] at hy
            have hyt : y ∈ t := by rcases hy with ⟨h, _⟩ | ⟨h, _⟩ <;> exact h
            rw [fixCmp_coupled hx (hct y hyt), him]
            rcases hy with ⟨_, hi⟩ | ⟨_, hi⟩ <;> rw [hi] <;> decide
          have hrest : ∀ y ∈ (t.filter fun f => f.impact == Impact.low),
              fixCmp x y ≤ 0 := by
            intro y hy
            simp only [List.mem_filter, beq_iff_eq] at hy
            rw [fixCmp_coupled hx (hct y hy.1), him, hy.2]
            decide
          rw [stableInsert_append hA, stableInsert_eq_cons hrest]
          simp [List.filter_cons, him]

theorem impactBucket_length (l : List PriorityFix) :
    (impactBucket l).length = l.length := by
  induction l with
  | nil => rfl
  | cons x t ih =>
      unfold impactBucket at ih ⊢
      cases him : x.impact <;>
        simp only [List.filter_cons, him, List.length_append, List.length_cons] at ih ⊢ <;>
        simp <;> omega

theorem collectedFixes_coupled (cats : List CategoryResult) :
    ∀ f ∈ collectedFixes cats, CoupledFix f := by
  intro f hf
  unfold collectedFixes at hf
  simp only [List.mem_flatMap, List.mem_map, List.mem_filter] at hf
  obtain ⟨cat, _, f0, _, rfl⟩ := hf
  rfl

/-- C4: the priority fixes of a graded report are exactly the failing
findings, collected in category order then finding order, each given the
fixed effort of its impact, and stably sorted by impact rank (ties keep
collection order) — the bucketed form `high ++ medium ++ low` of the
collected list, with nothing truncated. -/
theorem gradeReport_priorityFixes_spec (cats : List CategoryResult)
    (adSpend : Option String) (businessType : String) :
    (gradeReport cats adSpend businessType).priorityFixes =
      impactBucket (collectedFixes cats)
    ∧ (gradeReport cats adSpend businessType).priorityFixes.length =
        (collectedFixes cats).length
    ∧ ∀ f ∈ (gradeReport cats adSpend businessType).priorityFixes,
        f.effort = effortFromImpact f.impact := by
  have h : (gradeReport cats adSpend businessType).priorityFixes =
      stableSort fixCmp (collectedFixes cats) := rfl
  rw [h, stableSort_fixCmp_bucket _ (collectedFixes_coupled cats)]
  refine ⟨rfl, impactBucket_length _, ?_⟩
  intro f hf
  exact collectedFixes_coupled cats f (mem_impactBucket hf)

end SiteGrader
